import Mathlib

/-!
Verification of the payment-record registry of flask-merchants.

This file gives a shallow embedding of the core of the repository:

* `flask_merchants/models.py` — the `PaymentMixin` row shape, its
  `VALID_STATES` set, the `validate_state` ORM validator and `to_dict`;
* `flask_merchants/__init__.py` — the `FlaskMerchants` extension state
  (provider registry, default client, client cache, optional durable
  backend with an ordered list of model classes, in-memory store) and its
  public operations `save_session`, `get_session`, `update_state`,
  `refund_session`, `cancel_session`, `sync_from_provider`,
  `all_sessions`, `list_providers`, `get_client`, `init_app`;
* `flask_merchants/views.py` and `flask_merchants/quart_views.py` — the
  route tables of the two blueprints and the `checkout`, `providers` and
  `webhook` handlers.

External collaborators (the merchants SDK client, webhook signature
verification, webhook parsing) are passed in as explicit function
parameters, mirroring their call sites; Python `Decimal` amounts are
modelled as rationals, and the `.2f` formatting of `to_dict` as
round-half-even quantisation to hundredths.
-/

/-- String/string maps used for `metadata` and raw payload dictionaries. -/
abbrev Payload := List (String × String)

/-- PaymentMixin.VALID_STATES from models.py: the recognised lifecycle states. -/
def VALID_STATES : List String :=
  ["pending", "processing", "succeeded", "failed", "cancelled", "refunded", "unknown"]

/-- The request payload dict built by the quart checkout view and stored on a
record (amount, currency, success/cancel urls, metadata, optional provider). -/
structure ReqPayload where
  amount : ℚ
  currency : String
  success_url : String
  cancel_url : String
  metadata : Payload
  provider : Option String
deriving DecidableEq

/-- A merchants.CheckoutSession descriptor as consumed by save_session.
`raw` is `session.raw`: `some d` when it is a dict, `none` otherwise. -/
structure CheckoutSession where
  session_id : String
  redirect_url : String
  provider : String
  amount : ℚ
  currency : String
  metadata : Payload
  raw : Option Payload
deriving DecidableEq

/-- A durable row of a PaymentMixin model (models.py column set, minus the
timestamp columns which no operation reads). -/
structure DbRow where
  session_id : String
  redirect_url : String
  provider : String
  amount : ℚ
  currency : String
  state : String
  metadata_json : Payload
  request_payload : Option ReqPayload
  response_payload : Payload
deriving DecidableEq

/-- The dict shape shared by the in-memory store entries of save_session and
by PaymentMixin.to_dict (a `none` request payload stands for the empty dict). -/
structure StoreData where
  session_id : String
  redirect_url : String
  provider : String
  amount : ℚ
  currency : String
  state : String
  metadata : Payload
  request_payload : Option ReqPayload
  response_payload : Payload
deriving DecidableEq

/-- Floor of a rational, computed from its reduced numerator and denominator. -/
def ratFloorZ (q : ℚ) : ℤ := Int.fdiv q.num q.den

/-- Round-half-even of a rational to an integer, the rounding used by Python
string formatting of Decimal values. -/
def roundHalfEven (q : ℚ) : ℤ :=
  let f := ratFloorZ q
  let frac := q - (f : ℚ)
  if frac < 1/2 then f
  else if frac > 1/2 then f + 1
  else if f % 2 = 0 then f else f + 1

/-- Quantisation of an amount to two decimal places: the numeric value of the
string produced by the .2f format in PaymentMixin.to_dict. -/
def quantize2 (q : ℚ) : ℚ := (roundHalfEven (q * 100) : ℚ) / 100

/-- PaymentMixin.to_dict from models.py: the plain-dict view of a durable row;
the amount is re-rendered with two decimal places. -/
def to_dict (r : DbRow) : StoreData :=
  { session_id := r.session_id
    redirect_url := r.redirect_url
    provider := r.provider
    amount := quantize2 r.amount
    currency := r.currency
    state := r.state
    metadata := r.metadata_json
    request_payload := r.request_payload
    response_payload := r.response_payload }

/-! ### The in-memory store (a Python dict keyed by session_id) -/

/-- Lookup in the in-memory store (dict subscript / .get). -/
def storeLookup : List (String × StoreData) → String → Option StoreData
  | [], _ => none
  | e :: rest, k => if e.1 = k then some e.2 else storeLookup rest k

/-- Python dict assignment: replace the value at an existing key in place,
append a new key at the end. -/
def storeInsert (store : List (String × StoreData)) (k : String) (v : StoreData) :
    List (String × StoreData) :=
  match store with
  | [] => [(k, v)]
  | e :: rest => if e.1 = k then (k, v) :: rest else e :: storeInsert rest k v

/-- The in-place mutation `store[k]["state"] = st` on the first (unique) entry. -/
def storeSetState (store : List (String × StoreData)) (k : String) (st : String) :
    List (String × StoreData) :=
  match store with
  | [] => []
  | e :: rest =>
    if e.1 = k then (e.1, { e.2 with state := st }) :: rest
    else e :: storeSetState rest k st

/-! ### Durable tables, one per registered model class -/

/-- Model classes are identified by name. -/
abbrev ModelId := String

/-- The rows of one model's table, in insertion order. -/
abbrev Tables := List (ModelId × List DbRow)

/-- The rows currently stored for model `m` (empty when the table is absent). -/
def getTable : Tables → ModelId → List DbRow
  | [], _ => []
  | e :: rest, m => if e.1 = m then e.2 else getTable rest m

/-- The row returned by `.filter_by(session_id=id).first()`: the first row of
the table whose session_id matches. -/
def findRow : List DbRow → String → Option DbRow
  | [], _ => none
  | r :: rest, id => if r.session_id = id then some r else findRow rest id

/-- db.session.add + commit: append a row to model `m`'s table. -/
def addRow (tables : Tables) (m : ModelId) (r : DbRow) : Tables :=
  match tables with
  | [] => [(m, [r])]
  | e :: rest => if e.1 = m then (e.1, e.2 ++ [r]) :: rest else e :: addRow rest m r

/-- Set the state of the first row matching `id` (the row returned by
`.filter_by(session_id=id).first()`). -/
def setRowState (rows : List DbRow) (id st : String) : List DbRow :=
  match rows with
  | [] => []
  | r :: rest =>
    if r.session_id = id then { r with state := st } :: rest
    else r :: setRowState rest id st

/-- Apply `setRowState` inside model `m`'s table. -/
def setTableRowState (tables : Tables) (m : ModelId) (id st : String) : Tables :=
  match tables with
  | [] => []
  | e :: rest =>
    if e.1 = m then (e.1, setRowState e.2 id st) :: rest
    else e :: setTableRowState rest m id st

/-- The cross-model search of get_session / update_state: walk the registered
model classes in registration order, return the first row matching `id`
together with the model it was found in. -/
def findRecord (tables : Tables) (classes : List ModelId) (id : String) :
    Option (ModelId × DbRow) :=
  match classes with
  | [] => none
  | m :: rest =>
    match findRow (getTable tables m) id with
    | some r => some (m, r)
    | none => findRecord tables rest id

/-! ### The FlaskMerchants extension state -/

/-- The mutable state of a FlaskMerchants instance together with the merchants
global provider registry (providers and clients are identified by their key
strings; a client for key k is modelled as k itself). -/
structure ExtState where
  registry : List String
  defaultClient : Option String
  clientCache : List String
  durable : Bool
  models : List ModelId
  tables : Tables
  store : List (String × StoreData)
deriving DecidableEq

/-- merchants.register_provider: keys the registry by provider key; re-register
of an existing key replaces the provider in place (invisible here, where a
provider is its key). -/
def registerProvider (reg : List String) (k : String) : List String :=
  if k ∈ reg then reg else reg ++ [k]

/-- External registration of a provider after initialisation. -/
def extRegister (ext : ExtState) (k : String) : ExtState :=
  { ext with registry := registerProvider ext.registry k }

/-- FlaskMerchants.list_providers: the live registry keys. -/
def list_providers (ext : ExtState) : List String := ext.registry

/-- FlaskMerchants._get_model_classes: the registered models, falling back to
the built-in Payment model when none were registered. -/
def getModelClasses (ext : ExtState) : List ModelId :=
  if ext.models = [] then ["Payment"] else ext.models

/-- FlaskMerchants._payment_model: the default (first) model class. -/
def paymentModel (ext : ExtState) : ModelId := (getModelClasses ext).headD "Payment"

/-- Errors raised by client lookup: RuntimeError before init_app, KeyError for
an unregistered provider key. -/
inductive ClientErr where
  | notInit
  | unknownProvider
deriving DecidableEq

/-- FlaskMerchants.get_client: None resolves to the default client; a key is
served from the local cache, else constructed from the registry, else KeyError.
Returns the client together with the (possibly cache-extended) state. -/
def get_client (ext : ExtState) (key : Option String) :
    Except ClientErr (String × ExtState) :=
  match key with
  | none =>
    match ext.defaultClient with
    | none => .error .notInit
    | some c => .ok (c, ext)
  | some k =>
    if k ∈ ext.clientCache then .ok (k, ext)
    else if k ∈ ext.registry then
      .ok (k, { ext with clientCache := ext.clientCache ++ [k] })
    else .error .unknownProvider

/-- FlaskMerchants.init_app (together with __init__): register the explicitly
supplied providers (the single provider argument in front of the list) into the
pre-existing registry, fall back to a DummyProvider when the registry is still
empty, and fix the default client as the first explicitly supplied provider or
else the first key of the live registry. -/
def init_app (pre : List String) (provider : Option String)
    (providers : List String) (db : Bool) (models : List ModelId) : ExtState :=
  let allProviders := (match provider with | some p => [p] | none => []) ++ providers
  let reg1 := allProviders.foldl registerProvider pre
  let reg2 := if reg1 = [] then registerProvider reg1 "dummy" else reg1
  let defaultKey := match allProviders with
    | p :: _ => p
    | [] => reg2.headD "dummy"
  { registry := reg2
    defaultClient := some defaultKey
    clientCache := []
    durable := db
    models := models
    tables := []
    store := [] }

/-! ### Payment store operations -/

/-- FlaskMerchants.save_session: build the record dict with state "pending";
when durable, insert a row into the resolved target model and commit; always
also write the in-memory copy. -/
def save_session (ext : ExtState) (session : CheckoutSession)
    (model_class : Option ModelId) (request_payload : Option ReqPayload) : ExtState :=
  let response_raw := session.raw.getD []
  let data : StoreData :=
    { session_id := session.session_id
      redirect_url := session.redirect_url
      provider := session.provider
      amount := session.amount
      currency := session.currency
      state := "pending"
      metadata := session.metadata
      request_payload := request_payload
      response_payload := response_raw }
  let ext1 :=
    if ext.durable then
      let cls := model_class.getD (paymentModel ext)
      let row : DbRow :=
        { session_id := session.session_id
          redirect_url := session.redirect_url
          provider := session.provider
          amount := session.amount
          currency := session.currency
          state := "pending"
          metadata_json := session.metadata
          request_payload := request_payload
          response_payload := response_raw }
      { ext with tables := addRow ext.tables cls row }
    else ext
  { ext1 with store := storeInsert ext1.store session.session_id data }

/-- FlaskMerchants.get_session: durable configuration searches the registered
models in order and returns the first match as a dict; otherwise the in-memory
entry. The durable branch never falls back to the in-memory store. -/
def get_session (ext : ExtState) (payment_id : String) : Option StoreData :=
  if ext.durable then
    (findRecord ext.tables (getModelClasses ext) payment_id).map (fun p => to_dict p.2)
  else storeLookup ext.store payment_id

/-- FlaskMerchants.update_state: search models in order and update the first
match (the ORM validate_state validator raises ValueError — modelled as the
error outcome — when the new state is unrecognised, before anything changes);
mirror a successful durable update into the in-memory store when present;
fall back to the in-memory store when no model matches. -/
def update_state (ext : ExtState) (payment_id state : String) :
    Except Unit Bool × ExtState :=
  if ext.durable then
    match findRecord ext.tables (getModelClasses ext) payment_id with
    | some (m, _) =>
      if state ∈ VALID_STATES then
        let tables1 := setTableRowState ext.tables m payment_id state
        let store1 :=
          if (storeLookup ext.store payment_id).isSome then
            storeSetState ext.store payment_id state
          else ext.store
        (.ok true, { ext with tables := tables1, store := store1 })
      else (.error (), ext)
    | none =>
      if (storeLookup ext.store payment_id).isSome then
        (.ok true, { ext with store := storeSetState ext.store payment_id state })
      else (.ok false, ext)
  else
    if (storeLookup ext.store payment_id).isSome then
      (.ok true, { ext with store := storeSetState ext.store payment_id state })
    else (.ok false, ext)

/-- FlaskMerchants.refund_session: update_state with the fixed state refunded. -/
def refund_session (ext : ExtState) (payment_id : String) :
    Except Unit Bool × ExtState :=
  update_state ext payment_id "refunded"

/-- FlaskMerchants.cancel_session: update_state with the fixed state cancelled. -/
def cancel_session (ext : ExtState) (payment_id : String) :
    Except Unit Bool × ExtState :=
  update_state ext payment_id "cancelled"

/-- FlaskMerchants.sync_from_provider: look up the stored record (absent gives
None before any provider contact); fetch the live status through the default
client, any exception there giving None with nothing changed; on success write
the returned state via update_state (a ValueError escaping from it is the
outer error outcome) and return the updated record view. The provider call is
`fetch c id` where `c` is the default client. -/
def sync_from_provider (fetch : String → String → Except Unit String)
    (ext : ExtState) (payment_id : String) :
    Except Unit (Option StoreData) × ExtState :=
  match get_session ext payment_id with
  | none => (.ok none, ext)
  | some stored =>
    let res := match ext.defaultClient with
      | none => Except.error ()
      | some c => fetch c payment_id
    match res with
    | .error _ => (.ok none, ext)
    | .ok st =>
      match update_state ext payment_id st with
      | (.error _, ext1) => (.error (), ext1)
      | (.ok _, ext1) => (.ok (some { stored with state := st }), ext1)

/-- FlaskMerchants.all_sessions: durable configuration returns the dict views
of all rows of the selected model (or of every registered model, in order);
otherwise the in-memory store values. -/
def all_sessions (ext : ExtState) (model_class : Option ModelId) : List StoreData :=
  if ext.durable then
    let classes := match model_class with
      | some c => [c]
      | none => getModelClasses ext
    (classes.map (fun c => (getTable ext.tables c).map to_dict)).flatten
  else ext.store.map (·.2)

/-! ### The HTTP view layer (views.py and quart_views.py) -/

/-- The routes declared by create_blueprint in views.py (path, methods). -/
def flaskRoutes : List (String × List String) :=
  [("/checkout", ["GET", "POST"]),
   ("/success", ["GET"]),
   ("/cancel", ["GET"]),
   ("/status/<payment_id>", ["GET"]),
   ("/webhook", ["POST"])]

/-- The routes declared by create_async_blueprint in quart_views.py. -/
def quartRoutes : List (String × List String) :=
  [("/checkout", ["GET", "POST"]),
   ("/providers", ["GET"]),
   ("/success", ["GET"]),
   ("/cancel", ["GET"]),
   ("/status/<payment_id>", ["GET"]),
   ("/webhook", ["POST"])]

/-- The quart providers view: the body of the providers key of its JSON
response, the live registered provider keys. -/
def providersHandler (ext : ExtState) : List String := list_providers ext

/-- The success and cancel callback urls passed to create_checkout (url_for
values under the default /merchants prefix). -/
def mSuccessUrl : String := "/merchants/success"

/-- See mSuccessUrl. -/
def mCancelUrl : String := "/merchants/cancel"

/-- The arguments the checkout views pass to client.payments.create_checkout. -/
structure CreateArgs where
  amount : ℚ
  currency : String
  success_url : String
  cancel_url : String
  metadata : Payload
deriving DecidableEq

/-- A parsed checkout request: amount and currency after defaulting, parsed
metadata, the raw provider field, and whether the request body was JSON. -/
structure CheckoutRequest where
  amount : ℚ
  currency : String
  metadata : Payload
  providerField : Option String
  isJson : Bool
deriving DecidableEq

deriving instance DecidableEq for Except

/-- Responses of the checkout views. -/
inductive CheckoutResp where
  | okJson (session_id redirect_url : String)
  | redirectTo (url : String)
  | badRequest (msg : String)
deriving DecidableEq

/-- The checkout view of views.py (Flask blueprint): always creates the
session through the default client (`ext.client`), never consults the
request's provider field; a merchants.UserError from create_checkout is a 400;
on success the session is saved with no request payload and the response is
JSON or a redirect depending on the request kind. The outer error outcome is
an uncaught RuntimeError from ext.client before initialisation.
`create c a` models `client(c).payments.create_checkout(a)`, with the error
case standing for merchants.UserError. -/
def flaskCheckout (create : String → CreateArgs → Except Unit CheckoutSession)
    (ext : ExtState) (req : CheckoutRequest) :
    Except Unit CheckoutResp × ExtState :=
  match ext.defaultClient with
  | none => (.error (), ext)
  | some c =>
    match create c
        { amount := req.amount, currency := req.currency,
          success_url := mSuccessUrl, cancel_url := mCancelUrl,
          metadata := req.metadata } with
    | .error _ => (.ok (.badRequest "user error"), ext)
    | .ok session =>
      let ext1 := save_session ext session none none
      if req.isJson then
        (.ok (.okJson session.session_id session.redirect_url), ext1)
      else (.ok (.redirectTo session.redirect_url), ext1)

/-- The checkout view of quart_views.py: resolves the request's provider field
(empty or missing meaning the default) through get_client, answering 400 on an
unknown key; creates the session through the resolved client; saves it with
the request payload (including the provider key when one was given); responds
with JSON or a redirect. A RuntimeError from get_client(None) before
initialisation is not caught (the outer error outcome). -/
def quartCheckout (create : String → CreateArgs → Except Unit CheckoutSession)
    (ext : ExtState) (req : CheckoutRequest) :
    Except Unit CheckoutResp × ExtState :=
  let provider_key : Option String := match req.providerField with
    | some s => if s = "" then none else some s
    | none => none
  match get_client ext provider_key with
  | .error .unknownProvider =>
    (.ok (.badRequest ("Unknown provider: " ++ (provider_key.getD "None"))), ext)
  | .error .notInit => (.error (), ext)
  | .ok (client, ext1) =>
    match create client
        { amount := req.amount, currency := req.currency,
          success_url := mSuccessUrl, cancel_url := mCancelUrl,
          metadata := req.metadata } with
    | .error _ => (.ok (.badRequest "user error"), ext1)
    | .ok session =>
      let reqPayload : ReqPayload :=
        { amount := req.amount, currency := req.currency,
          success_url := mSuccessUrl, cancel_url := mCancelUrl,
          metadata := req.metadata, provider := provider_key }
      let ext2 := save_session ext1 session none (some reqPayload)
      if req.isJson then
        (.ok (.okJson session.session_id session.redirect_url), ext2)
      else (.ok (.redirectTo session.redirect_url), ext2)

/-- A webhook event as produced by the provider's parse_webhook (the state is
the string value of the SDK PaymentState enum member). -/
structure WebhookEvent where
  event_id : String
  event_type : String
  payment_id : String
  state : String
deriving DecidableEq

/-- Responses of the webhook view: the 200 body (received true plus the event
fields) or a 400 error body. -/
inductive WebhookResp where
  | ok200 (event_id event_type payment_id state : String)
  | badRequest (msg : String)
deriving DecidableEq

/-- Truthiness of the configured webhook secret (`if secret:` skips both None
and the empty string). -/
def secretTruthy (secret : Option String) : Bool :=
  match secret with
  | none => false
  | some s => s ≠ ""

/-- The webhook view (identical control flow in views.py and quart_views.py):
with a truthy secret, a failing HMAC-SHA256 signature verification is a 400
with no processing; then the payload is parsed by the provider, any exception
giving a 400; then update_state(event.payment_id, event.state) is applied and
the 200 body is returned. `verifyOk` is the outcome of
merchants.verify_signature on this request, `parse` the outcome of
parse_webhook; a ValueError escaping update_state is the outer error. -/
def webhookHandler (ext : ExtState) (secret : Option String) (verifyOk : Bool)
    (parse : Except Unit WebhookEvent) : Except Unit WebhookResp × ExtState :=
  if secretTruthy secret ∧ ¬verifyOk then
    (.ok (.badRequest "invalid signature"), ext)
  else
    match parse with
    | .error _ => (.ok (.badRequest "malformed payload"), ext)
    | .ok ev =>
      match update_state ext ev.payment_id ev.state with
      | (.error _, ext1) => (.error (), ext1)
      | (.ok _, ext1) =>
        (.ok (.ok200 ev.event_id ev.event_type ev.payment_id ev.state), ext1)


/-! ### Invariants and concrete instances used in the theorems -/

/-- No row of any table carries the given session id. -/
def freshTables (t : Tables) (sid : String) : Prop :=
  ∀ e ∈ t, ∀ r ∈ e.2, r.session_id ≠ sid

/-- Every row of every durable table carries a recognised lifecycle state. -/
def tablesValid (t : Tables) : Prop :=
  ∀ e ∈ t, ∀ r ∈ e.2, r.state ∈ VALID_STATES

/-- A concrete checkout session used in witnesses. -/
def demoSession : CheckoutSession :=
  { session_id := "s1", redirect_url := "http://pay.example/s1", provider := "dummy",
    amount := 5, currency := "USD", metadata := [], raw := some [] }

/-- An in-memory-only extension state holding demoSession. -/
def demoMemExt : ExtState :=
  save_session (init_app ["dummy"] none [] false []) demoSession none none

/-- A checkout session recorded under the non-default provider key. -/
def demoAltSession : CheckoutSession :=
  { session_id := "p2", redirect_url := "http://pay.example/p2",
    provider := "alt_dummy", amount := 7, currency := "EUR", metadata := [],
    raw := some [] }

/-- An in-memory extension with two registered providers and default dummy. -/
def demoTwoProvBase : ExtState := init_app ["dummy", "alt_dummy"] none [] false []

/-- demoTwoProvBase after saving demoAltSession. -/
def demoTwoProvExt : ExtState := save_session demoTwoProvBase demoAltSession none none

/-- A session whose amount has three decimal places. -/
def demoFineSession : CheckoutSession :=
  { session_id := "s3", redirect_url := "http://pay.example/s3", provider := "dummy",
    amount := 10999/1000, currency := "USD", metadata := [], raw := some [] }

/-- A durable extension with the built-in Payment model. -/
def demoDurExt : ExtState := init_app ["dummy"] none [] true []

/-- A durable extension with two registered models. -/
def demoTwoModelExt : ExtState := init_app ["dummy"] none [] true ["pagos", "paiements"]

/-- A provider client stub mirroring DummyProvider: the created session carries
the client's provider key and echoes amount, currency and metadata. -/
def demoCreate (k : String) (a : CreateArgs) : Except Unit CheckoutSession :=
  .ok { session_id := "sess_" ++ k, redirect_url := "http://pay.example/" ++ k,
        provider := k, amount := a.amount, currency := a.currency,
        metadata := a.metadata, raw := some [] }

/-- A status fetch stub that always reports succeeded. -/
def demoFetch (_ : String) (_ : String) : Except Unit String := .ok "succeeded"

/-- Checkout request carrying an unregistered provider key. -/
def demoBadProvReq : CheckoutRequest :=
  { amount := 5, currency := "USD", metadata := [],
    providerField := some "nonexistent", isJson := true }

/-- Checkout request selecting the second provider. -/
def demoAltProvReq : CheckoutRequest :=
  { demoBadProvReq with providerField := some "alt_dummy" }

/-- Demo webhook event for the stored session s1. -/
def demoEvent : WebhookEvent :=
  { event_id := "evt_1", event_type := "payment.succeeded", payment_id := "s1",
    state := "succeeded" }

/-! ### Helper lemmas about the store and table primitives -/

theorem storeLookup_insert (s : List (String × StoreData)) (k : String) (v : StoreData) :
    storeLookup (storeInsert s k v) k = some v := by
  induction s with
  | nil => simp [storeInsert, storeLookup]
  | cons e rest ih =>
    by_cases h : e.1 = k
    · simp [storeInsert, h, storeLookup]
    · simp [storeInsert, h, storeLookup, ih]

theorem storeLookup_setState (s : List (String × StoreData)) (k st : String) :
    ∀ d, storeLookup s k = some d →
      storeLookup (storeSetState s k st) k = some { d with state := st } := by
  induction s with
  | nil => intro d h; simp [storeLookup] at h
  | cons e rest ih =>
    intro d h
    by_cases he : e.1 = k
    · simp [storeLookup, he] at h
      simp [storeSetState, he, storeLookup, ← h]
    · simp [storeLookup, he] at h
      simp [storeSetState, he, storeLookup, ih d h]

theorem getTable_addRow_self (t : Tables) (m : ModelId) (r : DbRow) :
    getTable (addRow t m r) m = getTable t m ++ [r] := by
  induction t with
  | nil => simp [addRow, getTable]
  | cons e rest ih =>
    by_cases h : e.1 = m
    · simp [addRow, h, getTable]
    · simp [addRow, h, getTable, ih]

theorem getTable_addRow_ne (t : Tables) (m c : ModelId) (r : DbRow) (h : c ≠ m) :
    getTable (addRow t m r) c = getTable t c := by
  have hmc : ¬ m = c := fun hh => h hh.symm
  induction t with
  | nil => simp [addRow, getTable, hmc]
  | cons e rest ih =>
    by_cases he : e.1 = m
    · have h1 : ¬ e.1 = c := fun hh => h (hh ▸ he)
      simp [addRow, he, getTable, h1, hmc]
    · by_cases hc : e.1 = c
      · simp [addRow, he, getTable, hc, h]
      · simp [addRow, he, getTable, hc, ih]

theorem getTable_setTable_self (t : Tables) (m : ModelId) (id st : String) :
    getTable (setTableRowState t m id st) m = setRowState (getTable t m) id st := by
  induction t with
  | nil => simp [setTableRowState, getTable, setRowState]
  | cons e rest ih =>
    by_cases h : e.1 = m
    · simp [setTableRowState, h, getTable]
    · simp [setTableRowState, h, getTable, ih]

theorem getTable_setTable_ne (t : Tables) (m c : ModelId) (id st : String) (h : c ≠ m) :
    getTable (setTableRowState t m id st) c = getTable t c := by
  have hmc : ¬ m = c := fun hh => h hh.symm
  induction t with
  | nil => simp [setTableRowState, getTable]
  | cons e rest ih =>
    by_cases he : e.1 = m
    · have h1 : ¬ e.1 = c := fun hc => h (hc ▸ he)
      simp [setTableRowState, he, getTable, h1, hmc]
    · by_cases hc : e.1 = c
      · simp [setTableRowState, he, getTable, hc, h]
      · simp [setTableRowState, he, getTable, hc, ih]

theorem findRow_append_none (l1 l2 : List DbRow) (id : String)
    (h : findRow l1 id = none) : findRow (l1 ++ l2) id = findRow l2 id := by
  induction l1 with
  | nil => simp
  | cons r rest ih =>
    by_cases hr : r.session_id = id
    · simp [findRow, hr] at h
    · simp [findRow, hr] at h ⊢
      exact ih h

theorem findRow_setRowState (l : List DbRow) (id st : String) :
    ∀ r, findRow l id = some r →
      findRow (setRowState l id st) id = some { r with state := st } := by
  induction l with
  | nil => intro r h; simp [findRow] at h
  | cons r0 rest ih =>
    intro r h
    by_cases hr : r0.session_id = id
    · simp [findRow, hr] at h
      simp [setRowState, hr, findRow, ← h]
    · simp [findRow, hr] at h
      simp [setRowState, hr, findRow, ih r h]

theorem findRow_eq_none_of_fresh (l : List DbRow) (sid : String)
    (h : ∀ r ∈ l, r.session_id ≠ sid) : findRow l sid = none := by
  induction l with
  | nil => simp [findRow]
  | cons r rest ih =>
    simp [findRow, h r (List.mem_cons_self r rest)]
    exact ih (fun r' hr' => h r' (List.mem_cons_of_mem r hr'))

theorem mem_getTable (t : Tables) (m : ModelId) (r : DbRow) (h : r ∈ getTable t m) :
    ∃ e ∈ t, r ∈ e.2 := by
  induction t with
  | nil => simp [getTable] at h
  | cons e rest ih =>
    by_cases he : e.1 = m
    · simp [getTable, he] at h
      exact ⟨e, List.mem_cons_self e rest, h⟩
    · simp [getTable, he] at h
      obtain ⟨e', he', hre'⟩ := ih h
      exact ⟨e', List.mem_cons_of_mem e he', hre'⟩

theorem getTable_fresh (t : Tables) (sid : String) (m : ModelId)
    (h : freshTables t sid) : ∀ r ∈ getTable t m, r.session_id ≠ sid := by
  intro r hr
  obtain ⟨e, he, hre⟩ := mem_getTable t m r hr
  exact h e he r hre

theorem findRecord_fresh (t : Tables) (cs : List ModelId) (sid : String)
    (h : freshTables t sid) : findRecord t cs sid = none := by
  induction cs with
  | nil => simp [findRecord]
  | cons c rest ih =>
    simp [findRecord, findRow_eq_none_of_fresh _ _ (getTable_fresh t sid c h), ih]

theorem findRecord_some_findRow (t : Tables) (cs : List ModelId) (id : String)
    (m : ModelId) (r : DbRow) (h : findRecord t cs id = some (m, r)) :
    findRow (getTable t m) id = some r := by
  induction cs with
  | nil => simp [findRecord] at h
  | cons c rest ih =>
    cases hf : findRow (getTable t c) id with
    | some r0 =>
      simp [findRecord, hf] at h
      obtain ⟨rfl, rfl⟩ := h
      exact hf
    | none =>
      simp [findRecord, hf] at h
      exact ih h

theorem findRecord_update (t : Tables) (cs : List ModelId) (id st : String)
    (m : ModelId) (r : DbRow) (h : findRecord t cs id = some (m, r)) :
    findRecord (setTableRowState t m id st) cs id = some (m, { r with state := st }) := by
  induction cs with
  | nil => simp [findRecord] at h
  | cons c rest ih =>
    cases hf : findRow (getTable t c) id with
    | some r0 =>
      simp [findRecord, hf] at h
      obtain ⟨rfl, rfl⟩ := h
      simp [findRecord, getTable_setTable_self, findRow_setRowState _ _ _ _ hf]
    | none =>
      simp [findRecord, hf] at h
      by_cases hcm : c = m
      · subst hcm
        have := findRecord_some_findRow t rest id c r h
        rw [hf] at this
        exact absurd this (by simp)
      · simp [findRecord, getTable_setTable_ne t m c id st hcm, hf, ih h]

theorem findRecord_addRow_fresh (t : Tables) (cs : List ModelId) (sid : String)
    (cls : ModelId) (row : DbRow) (h : freshTables t sid)
    (hrow : row.session_id = sid) (hcls : cls ∈ cs) :
    findRecord (addRow t cls row) cs sid = some (cls, row) := by
  induction cs with
  | nil => cases hcls
  | cons c rest ih =>
    by_cases hc : c = cls
    · subst hc
      have hfind : findRow (getTable (addRow t c row) c) sid = some row := by
        rw [getTable_addRow_self,
          findRow_append_none _ _ _
            (findRow_eq_none_of_fresh _ _ (getTable_fresh t sid c h))]
        simp [findRow, hrow]
      simp [findRecord, hfind]
    · have hcls' : cls ∈ rest := by
        rcases List.mem_cons.mp hcls with h1 | h1
        · exact absurd h1.symm hc
        · exact h1
      have hnone : findRow (getTable (addRow t cls row) c) sid = none := by
        rw [getTable_addRow_ne t cls c row hc]
        exact findRow_eq_none_of_fresh _ _ (getTable_fresh t sid c h)
      simp [findRecord, hnone, ih hcls']

/-! ### Operation-level lemmas -/

theorem update_state_found (ext : ExtState) (id st : String) (d : StoreData)
    (hg : get_session ext id = some d) (hv : st ∈ VALID_STATES) :
    (update_state ext id st).1 = .ok true ∧
    get_session (update_state ext id st).2 id = some { d with state := st } := by
  cases hd : ext.durable with
  | false =>
    simp [get_session, hd] at hg
    refine ⟨?_, ?_⟩
    · simp [update_state, hd, hg]
    · simp [update_state, hd, hg, get_session]
      exact storeLookup_setState ext.store id st d hg
  | true =>
    simp only [get_session, hd, if_true] at hg
    obtain ⟨p, hfr, hrd⟩ := Option.map_eq_some'.mp hg
    obtain ⟨m, r⟩ := p
    have hrec := findRecord_update ext.tables (getModelClasses ext) id st m r hfr
    simp only [getModelClasses] at hrec hfr
    refine ⟨?_, ?_⟩
    · simp [update_state, hd, getModelClasses, hfr, hv]
    · simp [update_state, hd, getModelClasses, hfr, hv, get_session, hrec]
      rw [← hrd]
      simp [to_dict]

theorem update_state_notfound (ext : ExtState) (id st : String)
    (hfr : findRecord ext.tables (getModelClasses ext) id = none)
    (hsl : storeLookup ext.store id = none) :
    update_state ext id st = (.ok false, ext) := by
  cases hd : ext.durable with
  | false => simp [update_state, hd, hsl]
  | true => simp [update_state, hd, hfr, hsl]

theorem get_session_save (ext : ExtState) (s : CheckoutSession)
    (mc : Option ModelId) (rp : Option ReqPayload)
    (hfresh : freshTables ext.tables s.session_id)
    (hmc : mc.getD (paymentModel ext) ∈ getModelClasses ext) :
    get_session (save_session ext s mc rp) s.session_id =
      some { session_id := s.session_id, redirect_url := s.redirect_url,
             provider := s.provider,
             amount := if ext.durable then quantize2 s.amount else s.amount,
             currency := s.currency, state := "pending", metadata := s.metadata,
             request_payload := rp, response_payload := s.raw.getD [] } := by
  cases hd : ext.durable with
  | false =>
    simp [save_session, hd, get_session, storeLookup_insert]
  | true =>
    have hrec := findRecord_addRow_fresh ext.tables (getModelClasses ext) s.session_id
        (mc.getD (paymentModel ext))
        { session_id := s.session_id, redirect_url := s.redirect_url,
          provider := s.provider, amount := s.amount, currency := s.currency,
          state := "pending", metadata_json := s.metadata,
          request_payload := rp, response_payload := s.raw.getD [] }
        hfresh rfl hmc
    simp only [getModelClasses] at hrec
    simp [save_session, hd, get_session, getModelClasses, hrec, to_dict]

/-! ### Arithmetic facts about the two-decimal quantisation -/

theorem ratFloorZ_intCast (n : ℤ) : ratFloorZ (n : ℚ) = n := by
  simp [ratFloorZ, Rat.num_intCast, Rat.den_intCast, Int.fdiv_one]

theorem roundHalfEven_intCast (n : ℤ) : roundHalfEven (n : ℚ) = n := by
  simp only [roundHalfEven, ratFloorZ_intCast]
  norm_num

theorem quantize2_eq_self (q : ℚ) (n : ℤ) (h : q * 100 = (n : ℚ)) :
    quantize2 q = q := by
  unfold quantize2
  rw [h, roundHalfEven_intCast, ← h]
  exact mul_div_cancel_right₀ q (by norm_num)

/-! ### Preservation of the recognised-state invariant on durable tables -/

theorem tablesValid_addRow (m : ModelId) (row : DbRow)
    (hrow : row.state ∈ VALID_STATES) :
    ∀ t : Tables, tablesValid t → tablesValid (addRow t m row) := by
  intro t
  induction t with
  | nil =>
    intro _ e he r hr
    simp [addRow] at he
    subst he
    simp at hr
    subst hr
    exact hrow
  | cons e0 rest ih =>
    intro ht e he r hr
    by_cases h0 : e0.1 = m
    · simp [addRow, h0] at he
      rcases he with he | he
      · subst he
        simp only at hr
        rcases List.mem_append.mp hr with hr | hr
        · exact ht e0 (List.mem_cons_self e0 rest) r hr
        · simp at hr
          subst hr
          exact hrow
      · exact ht e (List.mem_cons_of_mem e0 he) r hr
    · simp [addRow, h0] at he
      rcases he with he | he
      · subst he
        exact ht _ (List.mem_cons_self _ _) r hr
      · exact ih (fun e' he' => ht e' (List.mem_cons_of_mem _ he')) e he r hr

theorem setRowState_valid (id st : String) (hst : st ∈ VALID_STATES) :
    ∀ rows : List DbRow, (∀ r ∈ rows, r.state ∈ VALID_STATES) →
      ∀ r ∈ setRowState rows id st, r.state ∈ VALID_STATES := by
  intro rows
  induction rows with
  | nil => intro _ r hr; simp [setRowState] at hr
  | cons r0 rest ih =>
    intro hall r hr
    by_cases h0 : r0.session_id = id
    · simp [setRowState, h0] at hr
      rcases hr with hr | hr
      · subst hr; exact hst
      · exact hall r (List.mem_cons_of_mem r0 hr)
    · simp [setRowState, h0] at hr
      rcases hr with hr | hr
      · subst hr; exact hall _ (List.mem_cons_self _ _)
      · exact ih (fun r' hr' => hall r' (List.mem_cons_of_mem _ hr')) r hr

theorem tablesValid_setTable (m : ModelId) (id st : String)
    (hst : st ∈ VALID_STATES) :
    ∀ t : Tables, tablesValid t → tablesValid (setTableRowState t m id st) := by
  intro t
  induction t with
  | nil => intro _ e he; simp [setTableRowState] at he
  | cons e0 rest ih =>
    intro ht e he r hr
    by_cases h0 : e0.1 = m
    · simp [setTableRowState, h0] at he
      rcases he with he | he
      · subst he
        simp only at hr
        exact setRowState_valid id st hst e0.2
          (ht e0 (List.mem_cons_self e0 rest)) r hr
      · exact ht e (List.mem_cons_of_mem e0 he) r hr
    · simp [setTableRowState, h0] at he
      rcases he with he | he
      · subst he
        exact ht _ (List.mem_cons_self _ _) r hr
      · exact ih (fun e' he' => ht e' (List.mem_cons_of_mem _ he')) e he r hr

theorem update_state_tablesValid (ext : ExtState) (id st : String)
    (ht : tablesValid ext.tables) :
    tablesValid (update_state ext id st).2.tables := by
  cases hd : ext.durable with
  | false =>
    by_cases hs : (storeLookup ext.store id).isSome
    · simpa [update_state, hd, hs] using ht
    · simpa [update_state, hd, hs] using ht
  | true =>
    cases hfr : findRecord ext.tables (getModelClasses ext) id with
    | some p =>
      by_cases hv : st ∈ VALID_STATES
      · simpa [update_state, hd, hfr, hv] using
          tablesValid_setTable p.1 id st hv ext.tables ht
      · simpa [update_state, hd, hfr, hv] using ht
    | none =>
      by_cases hs : (storeLookup ext.store id).isSome
      · simpa [update_state, hd, hfr, hs] using ht
      · simpa [update_state, hd, hfr, hs] using ht

theorem save_session_tablesValid (ext : ExtState) (s : CheckoutSession)
    (mc : Option ModelId) (rp : Option ReqPayload)
    (ht : tablesValid ext.tables) :
    tablesValid (save_session ext s mc rp).tables := by
  cases hd : ext.durable with
  | false => simpa [save_session, hd] using ht
  | true =>
    simp only [save_session, hd, if_true]
    exact tablesValid_addRow _ _ (by simp [VALID_STATES]) ext.tables ht

theorem update_state_ok_of_valid (ext : ExtState) (id st : String)
    (hv : st ∈ VALID_STATES) :
    ∃ b, (update_state ext id st).1 = Except.ok b := by
  cases hd : ext.durable with
  | false =>
    by_cases hs : (storeLookup ext.store id).isSome
    · exact ⟨true, by simp [update_state, hd, hs]⟩
    · exact ⟨false, by simp [update_state, hd, hs]⟩
  | true =>
    cases hfr : findRecord ext.tables (getModelClasses ext) id with
    | some p => exact ⟨true, by simp [update_state, hd, hfr, hv]⟩
    | none =>
      by_cases hs : (storeLookup ext.store id).isSome
      · exact ⟨true, by simp [update_state, hd, hfr, hs]⟩
      · exact ⟨false, by simp [update_state, hd, hfr, hs]⟩

theorem sync_success (fetch : String → String → Except Unit String)
    (ext : ExtState) (id : String) (stored : StoreData) (c st : String)
    (hg : get_session ext id = some stored)
    (hc : ext.defaultClient = some c)
    (hf : fetch c id = .ok st) (hv : st ∈ VALID_STATES) :
    sync_from_provider fetch ext id =
      (.ok (some { stored with state := st }), (update_state ext id st).2) := by
  simp only [sync_from_provider, hg, hc, hf]
  obtain ⟨b, hu⟩ := update_state_ok_of_valid ext id st hv
  cases hup : update_state ext id st with
  | mk res e =>
    rw [hup] at hu
    simp only at hu
    subst hu
    simp

/-! ### Claim theorems -/

/-- C6: for every state string and every id with no matching record in any
registered durable model and no entry in the in-memory cache, update_state
returns false and leaves the extension state (durable tables and in-memory
store) exactly as it was; refund_session and cancel_session on such an id
likewise return false and change nothing. -/
theorem C6_unknown_id_noop (ext : ExtState) (id s : String)
    (hfr : findRecord ext.tables (getModelClasses ext) id = none)
    (hsl : storeLookup ext.store id = none) :
    update_state ext id s = (.ok false, ext) ∧
    refund_session ext id = (.ok false, ext) ∧
    cancel_session ext id = (.ok false, ext) := by
  refine ⟨update_state_notfound ext id s hfr hsl, ?_, ?_⟩
  · simpa [refund_session] using update_state_notfound ext id "refunded" hfr hsl
  · simpa [cancel_session] using update_state_notfound ext id "cancelled" hfr hsl

/-- Witness for C6 at a concrete state: the freshly initialised in-memory
extension has no record "nope", and update_state / refund / cancel on it
return false and leave the state unchanged. -/
theorem C6_unknown_id_noop_witness :
    (findRecord (init_app ["dummy"] none [] false []).tables
        (getModelClasses (init_app ["dummy"] none [] false [])) "nope" = none) ∧
    (storeLookup (init_app ["dummy"] none [] false []).store "nope" = none) ∧
    update_state (init_app ["dummy"] none [] false []) "nope" "succeeded" =
      (.ok false, init_app ["dummy"] none [] false []) :=
  ⟨by decide, by decide,
    (C6_unknown_id_noop (init_app ["dummy"] none [] false []) "nope" "succeeded"
      (by decide) (by decide)).1⟩

/-- C4: sync_from_provider returns absent for an unknown id without consulting
the provider (the result is the same for every fetch function); when the
provider status call fails it returns absent with the state untouched; on a
successful fetch of a recognised state it writes that state via update_state,
after which the stored record reads back with the new state, and returns the
updated record view. -/
theorem C4_sync_error_handling (fetch : String → String → Except Unit String)
    (ext : ExtState) (id : String) :
    (get_session ext id = none → sync_from_provider fetch ext id = (.ok none, ext)) ∧
    (∀ stored, get_session ext id = some stored →
      ((∀ c, ext.defaultClient = some c → fetch c id = .error ()) →
        sync_from_provider fetch ext id = (.ok none, ext)) ∧
      (∀ c st, ext.defaultClient = some c → fetch c id = .ok st →
        st ∈ VALID_STATES →
          sync_from_provider fetch ext id =
            (.ok (some { stored with state := st }), (update_state ext id st).2) ∧
          get_session (update_state ext id st).2 id =
            some { stored with state := st })) := by
  constructor
  · intro hg
    simp [sync_from_provider, hg]
  · intro stored hg
    constructor
    · intro herr
      cases hc : ext.defaultClient with
      | none => simp [sync_from_provider, hg, hc]
      | some c => simp [sync_from_provider, hg, hc, herr c hc]
    · intro c st hc hf hv
      exact ⟨sync_success fetch ext id stored c st hg hc hf hv,
        (update_state_found ext id st stored hg hv).2⟩

/-- Witness for C4 at a concrete state: sync on the unknown id "nope" is
absent and a no-op, and sync on the stored id "s1" with a succeeding fetch
updates the record to succeeded. -/
theorem C4_sync_error_handling_witness :
    (get_session demoMemExt "nope" = none ∧
      sync_from_provider demoFetch demoMemExt "nope" = (.ok none, demoMemExt)) ∧
    (∃ stored, get_session demoMemExt "s1" = some stored ∧
      sync_from_provider demoFetch demoMemExt "s1" =
        (.ok (some { stored with state := "succeeded" }),
          (update_state demoMemExt "s1" "succeeded").2)) := by
  have hg : get_session demoMemExt "s1" =
      some { session_id := "s1", redirect_url := "http://pay.example/s1",
             provider := "dummy", amount := 5, currency := "USD",
             state := "pending", metadata := [], request_payload := none,
             response_payload := [] } := by decide
  refine ⟨⟨by decide, (C4_sync_error_handling demoFetch demoMemExt "nope").1 (by decide)⟩,
    ⟨_, hg, ?_⟩⟩
  exact (((C4_sync_error_handling demoFetch demoMemExt "s1").2 _ hg).2 "dummy"
    "succeeded" (by decide) rfl (by decide)).1

/-- C10 (implicit): sync_from_provider always fetches through the default
client fixed at initialisation, never through the client of the provider
recorded on the stored record: with a stored record whose provider differs
from the default key, a successful sync writes the default client's fetch
result, and the outcome is unchanged under any modification of the fetch
behaviour of other provider keys. -/
theorem C10_sync_uses_default_client (fetch : String → String → Except Unit String)
    (ext : ExtState) (id : String) (stored : StoreData) (dk st : String)
    (hg : get_session ext id = some stored)
    (hdk : ext.defaultClient = some dk)
    (hne : stored.provider ≠ dk)
    (hf : fetch dk id = .ok st) (hv : st ∈ VALID_STATES) :
    sync_from_provider fetch ext id =
      (.ok (some { stored with state := st }), (update_state ext id st).2) ∧
    (∀ fetch2 : String → String → Except Unit String,
      (∀ j, fetch2 dk j = fetch dk j) →
        sync_from_provider fetch2 ext id = sync_from_provider fetch ext id) := by
  refine ⟨sync_success fetch ext id stored dk st hg hdk hf hv, ?_⟩
  intro fetch2 hagree
  simp [sync_from_provider, hg, hdk, hagree id]

/-- Witness for C10: in the two-provider state the stored record p2 carries
provider alt_dummy while the default client is dummy; sync writes the state
fetched through dummy. -/
theorem C10_sync_uses_default_client_witness :
    (∃ stored, get_session demoTwoProvExt "p2" = some stored ∧
      stored.provider = "alt_dummy" ∧
      demoTwoProvExt.defaultClient = some "dummy" ∧
      sync_from_provider demoFetch demoTwoProvExt "p2" =
        (.ok (some { stored with state := "succeeded" }),
          (update_state demoTwoProvExt "p2" "succeeded").2)) := by
  have hg : get_session demoTwoProvExt "p2" =
      some { session_id := "p2", redirect_url := "http://pay.example/p2",
             provider := "alt_dummy", amount := 7, currency := "EUR",
             state := "pending", metadata := [], request_payload := none,
             response_payload := [] } := by decide
  refine ⟨_, hg, rfl, by decide, ?_⟩
  exact (C10_sync_uses_default_client demoFetch demoTwoProvExt "p2" _ "dummy"
    "succeeded" hg (by decide) (by decide) rfl (by decide)).1

/-- C1 counterexample: in the in-memory-only configuration the public
operation update_state persists the unrecognised state "bogus" for a stored
record, so the persisted state is not always one of the recognised values. -/
theorem C1_counterexample_memory_state_unvalidated :
    (get_session (update_state demoMemExt "s1" "bogus").2 "s1").map
        (fun d => d.state) = some "bogus" ∧
    "bogus" ∉ VALID_STATES := by
  constructor
  · decide
  · decide

/-- C1 (amended): the state invariant holds for the durable store: on durable
tables whose rows all carry recognised states, every public operation
(save_session, update_state, refund_session, cancel_session,
sync_from_provider, webhook handling) preserves that property — the ORM
validator rejects any other value before commit. The in-memory cache is not
covered: update_state writes arbitrary strings there. -/
theorem C1_durable_states_always_valid (ext : ExtState)
    (ht : tablesValid ext.tables)
    (s : CheckoutSession) (mc : Option ModelId) (rp : Option ReqPayload)
    (id st : String) (fetch : String → String → Except Unit String)
    (secret : Option String) (verifyOk : Bool) (parse : Except Unit WebhookEvent) :
    tablesValid (save_session ext s mc rp).tables ∧
    tablesValid (update_state ext id st).2.tables ∧
    tablesValid (refund_session ext id).2.tables ∧
    tablesValid (cancel_session ext id).2.tables ∧
    tablesValid (sync_from_provider fetch ext id).2.tables ∧
    tablesValid (webhookHandler ext secret verifyOk parse).2.tables := by
  refine ⟨save_session_tablesValid ext s mc rp ht,
    update_state_tablesValid ext id st ht, ?_, ?_, ?_, ?_⟩
  · simpa [refund_session] using update_state_tablesValid ext id "refunded" ht
  · simpa [cancel_session] using update_state_tablesValid ext id "cancelled" ht
  · unfold sync_from_provider
    cases hg : get_session ext id with
    | none => simpa using ht
    | some stored =>
      cases hc : ext.defaultClient with
      | none => simp only [hc]; simpa using ht
      | some c =>
        cases hf : fetch c id with
        | error e => simp only [hc, hf]; simpa using ht
        | ok st2 =>
          simp only [hc, hf]
          have hval := update_state_tablesValid ext id st2 ht
          cases hu : update_state ext id st2 with
          | mk res e2 =>
            rw [hu] at hval
            cases res with
            | error a => simpa using hval
            | ok a => simpa using hval
  · unfold webhookHandler
    by_cases hsec : secretTruthy secret ∧ ¬verifyOk
    · simp only [if_pos hsec]
      simpa using ht
    · simp only [if_neg hsec]
      cases parse with
      | error e => simpa using ht
      | ok ev =>
        have hval := update_state_tablesValid ext ev.payment_id ev.state ht
        cases hu : update_state ext ev.payment_id ev.state with
        | mk res e2 =>
          rw [hu] at hval
          cases res with
          | error a => simpa [hu] using hval
          | ok a => simpa [hu] using hval

/-- Witness for C1 (amended), instantiated at the in-memory demo state with
trivially valid (empty) tables and the bogus state string. -/
theorem C1_durable_states_always_valid_witness :
    tablesValid demoMemExt.tables ∧
    tablesValid (update_state demoMemExt "s1" "bogus").2.tables :=
  have ht : tablesValid demoMemExt.tables := by
    intro e he
    simp [demoMemExt, save_session, init_app] at he
  ⟨ht, (C1_durable_states_always_valid demoMemExt ht demoSession none none
    "s1" "bogus" demoFetch none true (.ok demoEvent)).2.1⟩

theorem ratFloorZ_eq_floor (q : ℚ) : ratFloorZ q = ⌊q⌋ := by
  rw [ratFloorZ, Rat.floor_def]
  exact Int.fdiv_eq_ediv q.num (Int.natCast_nonneg q.den)

theorem quantize2_ten999 : quantize2 ((10999 : ℚ)/1000) = 11 := by
  have h1 : (10999 : ℚ)/1000 * 100 = 10999/10 := by norm_num
  have hfl : ratFloorZ ((10999 : ℚ)/10) = 1099 := by
    rw [ratFloorZ_eq_floor]
    rw [Int.floor_eq_iff]
    constructor <;> norm_num
  simp only [quantize2, roundHalfEven, h1, hfl]
  norm_num

/-- C2 counterexample: in the durable configuration a save of an amount with
three decimal places (10.999) reads back as 11 — to_dict re-renders amounts
with two decimals, so the returned amount does not equal the supplied one. -/
theorem C2_counterexample_durable_amount_rounded :
    (get_session (save_session demoDurExt demoFineSession none none) "s3").map
        (fun d => d.amount) = some 11 ∧
    demoFineSession.amount = 10999/1000 ∧ (11 : ℚ) ≠ 10999/1000 := by
  have hfresh : freshTables demoDurExt.tables "s3" := by
    intro e he
    simp [demoDurExt, init_app] at he
  have hmc : Option.none.getD (paymentModel demoDurExt) ∈
      getModelClasses demoDurExt := by decide
  have hg := get_session_save demoDurExt demoFineSession none none hfresh hmc
  refine ⟨?_, rfl, by norm_num⟩
  have hid : demoFineSession.session_id = "s3" := rfl
  rw [← hid, hg]
  have hdur : demoDurExt.durable = true := by decide
  simp only [Option.map_some', hdur, if_true]
  have hamt : demoFineSession.amount = (10999 : ℚ)/1000 := rfl
  rw [hamt, quantize2_ten999]

/-- C2 (amended): for a fresh session saved to a registered model,
get_session(session_id) returns a record with state pending and the supplied
provider and currency; the amount equals the supplied amount exactly in the
in-memory configuration, while the durable configuration returns it rounded
half-even to two decimal places — hence equal whenever the supplied amount is
a whole number of hundredths. -/
theorem C2_save_get_roundtrip (ext : ExtState) (s : CheckoutSession)
    (mc : Option ModelId) (rp : Option ReqPayload)
    (hfresh : freshTables ext.tables s.session_id)
    (hmc : mc.getD (paymentModel ext) ∈ getModelClasses ext) :
    (∃ d, get_session (save_session ext s mc rp) s.session_id = some d ∧
      d.state = "pending" ∧ d.provider = s.provider ∧ d.currency = s.currency ∧
      d.amount = (if ext.durable then quantize2 s.amount else s.amount)) ∧
    (∀ n : ℤ, s.amount * 100 = (n : ℚ) → quantize2 s.amount = s.amount) := by
  constructor
  · exact ⟨_, get_session_save ext s mc rp hfresh hmc, rfl, rfl, rfl, rfl⟩
  · intro n hn
    exact quantize2_eq_self s.amount n hn

/-- Witness for C2 at concrete states: the fresh durable extension accepts
demoSession under the default model and the hypotheses hold there. -/
theorem C2_save_get_roundtrip_witness :
    freshTables demoDurExt.tables demoSession.session_id ∧
    (Option.none.getD (paymentModel demoDurExt) ∈ getModelClasses demoDurExt) ∧
    (∃ d, get_session (save_session demoDurExt demoSession none none)
        demoSession.session_id = some d ∧
      d.state = "pending" ∧ d.provider = demoSession.provider ∧
      d.currency = demoSession.currency ∧
      d.amount = (if demoDurExt.durable then quantize2 demoSession.amount
        else demoSession.amount)) :=
  have hfresh : freshTables demoDurExt.tables demoSession.session_id := by
    intro e he
    simp [demoDurExt, init_app] at he
  ⟨hfresh, by decide,
    (C2_save_get_roundtrip demoDurExt demoSession none none hfresh (by decide)).1⟩

/-- C9: with a durable backend and two registered models A then B, saving a
fresh session into model B yields a record that get_session finds across
models, while all_sessions restricted to model A contains no record with that
session id. -/
theorem C9_target_model_isolation (ext : ExtState) (s : CheckoutSession)
    (A B : ModelId) (rp : Option ReqPayload)
    (hdur : ext.durable = true) (hmodels : ext.models = [A, B]) (hAB : A ≠ B)
    (hfresh : freshTables ext.tables s.session_id) :
    (∃ d, get_session (save_session ext s (some B) rp) s.session_id = some d) ∧
    (∀ d ∈ all_sessions (save_session ext s (some B) rp) (some A),
      d.session_id ≠ s.session_id) := by
  have hclasses : getModelClasses ext = [A, B] := by
    simp [getModelClasses, hmodels]
  constructor
  · have hmc : (some B).getD (paymentModel ext) ∈ getModelClasses ext := by
      simp [hclasses]
    exact ⟨_, get_session_save ext s (some B) rp hfresh hmc⟩
  · intro d hd
    have hds : (save_session ext s (some B) rp).durable = true := by
      simp [save_session, hdur]
    have hA : getTable (save_session ext s (some B) rp).tables A =
        getTable ext.tables A := by
      have htb : (save_session ext s (some B) rp).tables =
          addRow ext.tables B
            { session_id := s.session_id, redirect_url := s.redirect_url,
              provider := s.provider, amount := s.amount,
              currency := s.currency, state := "pending",
              metadata_json := s.metadata, request_payload := rp,
              response_payload := s.raw.getD [] } := by
        simp [save_session, hdur]
      rw [htb]
      exact getTable_addRow_ne ext.tables B A _ hAB
    have hall : all_sessions (save_session ext s (some B) rp) (some A) =
        (getTable (save_session ext s (some B) rp).tables A).map to_dict := by
      simp [all_sessions, hds]
    rw [hall, hA] at hd
    obtain ⟨r, hr, hrd⟩ := List.mem_map.mp hd
    intro hcon
    apply getTable_fresh ext.tables s.session_id A hfresh r hr
    rw [← hrd] at hcon
    simpa [to_dict] using hcon

/-- Witness for C9 at the two-model durable state with a fresh session. -/
theorem C9_target_model_isolation_witness :
    demoTwoModelExt.durable = true ∧ demoTwoModelExt.models = ["pagos", "paiements"] ∧
    ("pagos" : ModelId) ≠ "paiements" ∧
    (∃ d, get_session (save_session demoTwoModelExt demoSession (some "paiements") none)
        demoSession.session_id = some d) :=
  have hfresh : freshTables demoTwoModelExt.tables demoSession.session_id := by
    intro e he
    simp [demoTwoModelExt, init_app] at he
  ⟨by decide, by decide, by decide,
    (C9_target_model_isolation demoTwoModelExt demoSession "pagos" "paiements" none
      (by decide) (by decide) (by decide) hfresh).1⟩

/-- C7: with a truthy webhook secret, a failing signature verification yields
400 invalid signature and leaves all stores untouched; when the signature
verifies or no secret is configured, an unparseable payload yields 400
malformed payload with nothing changed, and a parsed event is processed by
applying update_state(event.payment_id, event.state) and answering 200 with
received true and the event fields. -/
theorem C7_webhook_signature_and_processing (ext : ExtState)
    (secret : Option String) (verifyOk : Bool) (parse : Except Unit WebhookEvent) :
    (secretTruthy secret = true → verifyOk = false →
      webhookHandler ext secret verifyOk parse =
        (.ok (.badRequest "invalid signature"), ext)) ∧
    ((secretTruthy secret = false ∨ verifyOk = true) →
      (parse = .error () →
        webhookHandler ext secret verifyOk parse =
          (.ok (.badRequest "malformed payload"), ext)) ∧
      (∀ ev, parse = .ok ev → ev.state ∈ VALID_STATES →
        webhookHandler ext secret verifyOk parse =
          (.ok (.ok200 ev.event_id ev.event_type ev.payment_id ev.state),
            (update_state ext ev.payment_id ev.state).2))) := by
  constructor
  · intro hs hv
    simp [webhookHandler, hs, hv]
  · intro hd
    have hncond : ¬(secretTruthy secret = true ∧ ¬verifyOk = true) := by
      rcases hd with h | h <;> simp [h]
    constructor
    · intro hp
      simp only [webhookHandler]
      rw [if_neg hncond, hp]
    · intro ev hp hv
      obtain ⟨b, hu⟩ := update_state_ok_of_valid ext ev.payment_id ev.state hv
      simp only [webhookHandler, if_neg hncond, hp]
      cases hup : update_state ext ev.payment_id ev.state with
      | mk res e2 =>
        rw [hup] at hu
        simp only at hu
        subst hu
        simp

/-- Witness for C7: a failing signature answers 400 on the demo state, and a
parsed succeeded event for the stored session s1 is processed with a 200. -/
theorem C7_webhook_signature_and_processing_witness :
    (webhookHandler demoMemExt (some "whsec") false (.ok demoEvent) =
      (.ok (.badRequest "invalid signature"), demoMemExt)) ∧
    (webhookHandler demoMemExt none true (.ok demoEvent) =
      (.ok (.ok200 "evt_1" "payment.succeeded" "s1" "succeeded"),
        (update_state demoMemExt "s1" "succeeded").2)) :=
  ⟨(C7_webhook_signature_and_processing demoMemExt (some "whsec") false
      (.ok demoEvent)).1 (by decide) rfl,
    ((C7_webhook_signature_and_processing demoMemExt none true
      (.ok demoEvent)).2 (Or.inl (by decide))).2 demoEvent rfl (by decide)⟩

/-- C8: the default client fixed by init_app is the first explicitly supplied
provider — a single provider argument preceding the providers list — or, when
none was supplied, the first key of the live registry (with the DummyProvider
fallback when that registry is empty); get_client(None) returns that default;
and for any state whose client cache only holds registered keys, get_client
on an unregistered key raises KeyError and never falls back to the default. -/
theorem C8_default_and_unknown_client (pre : List String)
    (provider : Option String) (providers : List String) (db : Bool)
    (models : List ModelId) (k : String) (ext2 : ExtState)
    (hsub : ∀ x ∈ ext2.clientCache, x ∈ ext2.registry) :
    ((init_app pre provider providers db models).defaultClient =
      some (provider.getD (providers.headD
        ((if pre = [] then ["dummy"] else pre).headD "dummy")))) ∧
    (∀ c, (init_app pre provider providers db models).defaultClient = some c →
      get_client (init_app pre provider providers db models) none =
        .ok (c, init_app pre provider providers db models)) ∧
    (k ∉ ext2.registry → get_client ext2 (some k) = .error .unknownProvider) := by
  refine ⟨?_, ?_, ?_⟩
  · cases provider with
    | some p => simp [init_app]
    | none =>
      cases providers with
      | cons q qs => simp [init_app]
      | nil =>
        cases pre with
        | nil => simp [init_app, registerProvider]
        | cons r rs => simp [init_app]
  · intro c hc
    simp [get_client, hc]
  · intro hk
    have hkc : k ∉ ext2.clientCache := fun hc => hk (hsub k hc)
    simp [get_client, hkc, hk]

/-- Witness for C8: with a single provider argument dummy taking precedence
over the providers list, the default is dummy and an unknown key raises. -/
theorem C8_default_and_unknown_client_witness :
    (∀ x ∈ (init_app [] (some "dummy") ["alt_dummy"] false []).clientCache,
      x ∈ (init_app [] (some "dummy") ["alt_dummy"] false []).registry) ∧
    "nonexistent" ∉ (init_app [] (some "dummy") ["alt_dummy"] false []).registry ∧
    (init_app [] (some "dummy") ["alt_dummy"] false []).defaultClient = some "dummy" ∧
    get_client (init_app [] (some "dummy") ["alt_dummy"] false [])
      (some "nonexistent") = .error .unknownProvider :=
  have hsub : ∀ x ∈ (init_app [] (some "dummy") ["alt_dummy"] false []).clientCache,
      x ∈ (init_app [] (some "dummy") ["alt_dummy"] false []).registry := by
    intro x hx
    simp [init_app] at hx
  ⟨hsub, by decide,
    (C8_default_and_unknown_client [] (some "dummy") ["alt_dummy"] false []
      "nonexistent" (init_app [] (some "dummy") ["alt_dummy"] false []) hsub).1,
    (C8_default_and_unknown_client [] (some "dummy") ["alt_dummy"] false []
      "nonexistent" (init_app [] (some "dummy") ["alt_dummy"] false []) hsub).2.2
      (by decide)⟩

/-- C3 (code evaluation at the failing input): with providers dummy and
alt_dummy registered, a checkout request carrying provider nonexistent is
served OK by the Flask view through the default dummy client and a record is
stored under provider dummy (instead of the claimed 400 with no record),
while the quart view answers 400 and stores nothing; with provider alt_dummy
the quart view stores the record under alt_dummy. -/
theorem C3_flask_checkout_ignores_provider :
    (flaskCheckout demoCreate demoTwoProvBase demoBadProvReq).1 =
      .ok (.okJson "sess_dummy" "http://pay.example/dummy") ∧
    (get_session (flaskCheckout demoCreate demoTwoProvBase demoBadProvReq).2
        "sess_dummy").map (fun d => d.provider) = some "dummy" ∧
    quartCheckout demoCreate demoTwoProvBase demoBadProvReq =
      (.ok (.badRequest "Unknown provider: nonexistent"), demoTwoProvBase) ∧
    (get_session (quartCheckout demoCreate demoTwoProvBase demoAltProvReq).2
        "sess_alt_dummy").map (fun d => d.provider) = some "alt_dummy" := by
  refine ⟨by decide, by decide, by decide, by decide⟩

/-- C5 (code evaluation): the Flask blueprint of views.py declares no
/providers route at all, while the quart blueprint does; the quart providers
handler reflects the live registry, including a provider registered after
initialisation. -/
theorem C5_providers_route_only_quart :
    "/providers" ∉ flaskRoutes.map (fun e => e.1) ∧
    ("/providers", ["GET"]) ∈ quartRoutes ∧
    providersHandler demoTwoProvBase = ["dummy", "alt_dummy"] ∧
    providersHandler (extRegister demoTwoProvBase "stripe") =
      ["dummy", "alt_dummy", "stripe"] := by
  refine ⟨by decide, by decide, by decide, by decide⟩
